import Mathlib

/-!
Shallow embedding of the incident lifecycle and aggregation model of the
Security-Incident-Management-System repository.

The embedded code comes from:
* `src/components/IncidentDetails.tsx` — the `updateStatus` and `addUpdate`
  mutation functions (status transition and comment recording);
* `src/components/Dashboard.tsx` — the `IncidentForm` create mutation and the
  `Analytics` aggregation (`stats`, `categoryStats`, `locationStats`,
  `topCategories`, `topLocations`, and the priority-breakdown width ratio);
* `src/components/IncidentList.tsx` — the incident fetch (ordered by
  `created_at` descending) and the client-side `filteredIncidents` predicate;
* `supabase/migrations/20251008051112_…​.sql` — column defaults
  (`status DEFAULT 'open'`, nullable `resolved_at`), NOT NULL and foreign-key
  constraints on `incident_updates`, and the `updated_at` refresh trigger.

Timestamps and identifiers are modelled as naturals; the store state carries a
current clock (`now`) and an id generator (`nextId`).  The record store is
modelled as in-memory lists with the relevant constraints (NOT NULL author,
incident foreign key) checked on insert.  JavaScript's stable `Array.sort` is
modelled with `List.mergeSort`, `Object.entries`' enumeration order (array
index-like keys first, ascending numerically, then the rest in insertion
order) with `jsObjectEntries`, and IEEE division in the analytics panel with
an explicit `JSNum` value domain where `0 / 0` is NaN.
-/

namespace IncidentSystem

/-- The four incident statuses of the `incident_status` SQL enum. -/
inductive IncidentStatus
  | «open»
  | in_progress
  | resolved
  | closed
deriving DecidableEq, Repr

/-- The four incident priorities of the `incident_priority` SQL enum. -/
inductive IncidentPriority
  | low
  | medium
  | high
  | critical
deriving DecidableEq, Repr

/-- The string stored in the `status` column for each enum value. -/
def statusToString : IncidentStatus → String
  | .«open» => "open"
  | .in_progress => "in_progress"
  | .resolved => "resolved"
  | .closed => "closed"

/-- The string stored in the `priority` column for each enum value. -/
def priorityToString : IncidentPriority → String
  | .low => "low"
  | .medium => "medium"
  | .high => "high"
  | .critical => "critical"

/-- A row of `public.incidents` (migration lines 17–31). -/
structure Incident where
  id : Nat
  title : String
  description : String
  status : IncidentStatus
  priority : IncidentPriority
  category : String
  location : String
  reporter_id : Nat
  assigned_to : Option Nat
  evidence_urls : List String
  created_at : Nat
  updated_at : Nat
  resolved_at : Option Nat
deriving DecidableEq, Repr

/-- A row of `public.incident_updates` (migration lines 34–41). -/
structure IncidentUpdate where
  id : Nat
  incident_id : Nat
  user_id : Nat
  update_type : String
  content : String
  created_at : Nat
deriving DecidableEq, Repr

/-- The record-store state: the two mutated collections, the current clock and
the id generator. -/
structure StoreState where
  incidents : List Incident
  updates : List IncidentUpdate
  now : Nat
  nextId : Nat
deriving DecidableEq, Repr

/-- Errors surfaced to the caller of a mutation: the explicit
`Not authenticated` throw in the create form, and store-level failures. -/
inductive OpError
  | notAuthenticated
  | storageError
deriving DecidableEq, Repr

/-- The raw caller-supplied input of the incident form.  The form state holds
title, description, priority, category, location and the uploaded evidence
locators; `rawStatus` models a status value present in the raw input, which the
insert payload in `Dashboard.tsx` (lines 348–363) never reads — the payload has
no `status` key, so the column takes its `DEFAULT 'open'`. -/
structure IncidentInput where
  title : String
  description : String
  priority : IncidentPriority
  category : String
  location : String
  rawStatus : Option IncidentStatus
  evidence_urls : List String
deriving DecidableEq, Repr

/-- The row persisted by the create-incident insert: the five supplied fields
plus `reporter_id`, `evidence_urls`, and the column defaults
(`status = 'open'`, `resolved_at = NULL`, generated id and timestamps). -/
def freshIncident (st : StoreState) (input : IncidentInput) (uid : Nat) : Incident :=
  { id := st.nextId
  , title := input.title
  , description := input.description
  , status := .«open»
  , priority := input.priority
  , category := input.category
  , location := input.location
  , reporter_id := uid
  , assigned_to := none
  , evidence_urls := input.evidence_urls
  , created_at := st.now
  , updated_at := st.now
  , resolved_at := none }

/-- The `IncidentForm` create mutation (`Dashboard.tsx` lines 325–364): reads
the authenticated user, throws `Not authenticated` when there is none, and
otherwise inserts one incident row.  No field validation is performed by the
mutation. -/
def createIncident (st : StoreState) (input : IncidentInput) (auth : Option Nat) :
    Except OpError Incident × StoreState :=
  match auth with
  | none => (.error .notAuthenticated, st)
  | some uid =>
      let row := freshIncident st input uid
      (.ok row, { st with incidents := st.incidents ++ [row], nextId := st.nextId + 1 })

/-- The patch sent by the status-transition update (`IncidentDetails.tsx`
lines 97–103): the new status, and `resolved_at` set to the current time
exactly when the new status is `resolved`, else null. -/
def statusPatch (s : IncidentStatus) (now : Nat) (i : Incident) : Incident :=
  { i with status := s
         , resolved_at := if s = .resolved then some now else none }

/-- A row-level UPDATE on `public.incidents` filtered by id; the
`update_incidents_updated_at` trigger refreshes `updated_at` on every updated
row. -/
def dbUpdateIncident (st : StoreState) (iid : Nat) (patch : Incident → Incident) :
    StoreState :=
  { st with incidents :=
      st.incidents.map fun i =>
        if i.id = iid then { patch i with updated_at := st.now } else i }

/-- An INSERT into `public.incident_updates`: fails when the author is absent
(`user_id` is NOT NULL) or when the referenced incident does not exist
(`incident_id` foreign key). -/
def dbInsertUpdate (st : StoreState) (iid : Nat) (user : Option Nat)
    (typ content : String) : Except OpError StoreState :=
  match user with
  | none => .error .storageError
  | some uid =>
      if st.incidents.any (fun i => i.id == iid) then
        .ok { st with
              updates := st.updates ++
                [{ id := st.nextId
                 , incident_id := iid
                 , user_id := uid
                 , update_type := typ
                 , content := content
                 , created_at := st.now }]
             , nextId := st.nextId + 1 }
      else .error .storageError

/-- The `updateStatus` mutation (`IncidentDetails.tsx` lines 95–115): first the
incident row is updated (status and `resolved_at`), throwing on error; then the
current user is read and one `status_change` timeline entry is inserted with
content `"Status changed to: " ++ status` — the result of this second insert is
not checked by the code, so its failure is silently dropped. -/
def updateStatus (st : StoreState) (iid : Nat) (s : IncidentStatus)
    (auth : Option Nat) : Except OpError Unit × StoreState :=
  let st1 := dbUpdateIncident st iid (statusPatch s st.now)
  match dbInsertUpdate st1 iid auth "status_change"
      ("Status changed to: " ++ statusToString s) with
  | .ok st2 => (.ok (), st2)
  | .error _ => (.ok (), st1)

/-- The `addUpdate` mutation (`IncidentDetails.tsx` lines 124–141): reads the
current user and inserts one `comment` timeline entry; this insert's error is
checked and re-thrown. -/
def addUpdate (st : StoreState) (iid : Nat) (content : String)
    (auth : Option Nat) : Except OpError Unit × StoreState :=
  match dbInsertUpdate st iid auth "comment" content with
  | .ok st2 => (.ok (), st2)
  | .error e => (.error e, st)

/-- Character-list version of JavaScript's `String.prototype.startsWith`
restricted to what substring search needs: does the second list start with the
first one? -/
def leadMatch : List Char → List Char → Bool
  | [], _ => true
  | _ :: _, [] => false
  | n :: ns, h :: hs => n == h && leadMatch ns hs

/-- Does `needle` occur as a contiguous run inside the second list? -/
def occursIn (needle : List Char) : List Char → Bool
  | [] => needle.isEmpty
  | h :: t => leadMatch needle (h :: t) || occursIn needle t

/-- JavaScript's `hay.includes(needle)`: substring containment. -/
def jsIncludes (hay needle : String) : Bool :=
  occursIn needle.toList hay.toList

/-- JavaScript's `s.toLowerCase()`: character-wise lowercasing. -/
def strToLower (s : String) : String :=
  ⟨s.data.map Char.toLower⟩

/-- The three filter controls of `IncidentList.tsx`: the search box and the
status / priority dropdowns, whose values are the literal option strings
(`"all"` or an enum value's string). -/
structure Filters where
  searchQuery : String
  statusFilter : String
  priorityFilter : String
deriving DecidableEq, Repr

/-- The `filteredIncidents` predicate (`IncidentList.tsx` lines 59–65):
case-insensitive substring match of the search text against title OR
description, and equality of the status / priority strings unless the dropdown
is at `"all"`. -/
def matchesFilters (f : Filters) (i : Incident) : Bool :=
  let matchesSearch :=
    jsIncludes (strToLower i.title) (strToLower f.searchQuery) ||
    jsIncludes (strToLower i.description) (strToLower f.searchQuery)
  let matchesStatus :=
    f.statusFilter == "all" || statusToString i.status == f.statusFilter
  let matchesPriority :=
    f.priorityFilter == "all" || priorityToString i.priority == f.priorityFilter
  matchesSearch && matchesStatus && matchesPriority

/-- Ordering used by the incident fetch: `created_at` descending. -/
def createdDescLE (a b : Incident) : Bool :=
  b.created_at ≤ a.created_at

/-- The incident fetch of `IncidentList.tsx` lines 18–27 (and of `Analytics`):
all rows of `public.incidents` ordered by `created_at` descending.  The store's
`ORDER BY` is modelled as a stable sort. -/
def fetchIncidentsDesc (st : StoreState) : List Incident :=
  st.incidents.mergeSort createdDescLE

/-- `listIncidents`: the fetched, ordered collection filtered client-side by
`matchesFilters`. -/
def listIncidents (st : StoreState) (f : Filters) : List Incident :=
  (fetchIncidentsDesc st).filter (matchesFilters f)

/-- The `stats` record of the `Analytics` component (`Dashboard.tsx`
lines 122–130). -/
structure Stats where
  total : Nat
  «open» : Nat
  inProgress : Nat
  resolved : Nat
  closed : Nat
  critical : Nat
  high : Nat
deriving DecidableEq, Repr

/-- The `stats` computation: total length plus one filtered count per status
value and per reported priority. -/
def summarize (incidents : List Incident) : Stats :=
  { total := incidents.length
  , «open» := (incidents.filter fun i => i.status == .«open»).length
  , inProgress := (incidents.filter fun i => i.status == .in_progress).length
  , resolved := (incidents.filter fun i => i.status == .resolved).length
  , closed := (incidents.filter fun i => i.status == .closed).length
  , critical := (incidents.filter fun i => i.priority == .critical).length
  , high := (incidents.filter fun i => i.priority == .high).length }

/-- One step of the `reduce` that builds `categoryStats` / `locationStats`
(`Dashboard.tsx` lines 132–140): `acc[key] = (acc[key] || 0) + 1`.  The
accumulator models the object's contents with keys in insertion
(first-encountered) order; the enumeration order that `Object.entries` later
applies to it is modelled separately by `jsObjectEntries`. -/
def bumpKey : List (String × Nat) → String → List (String × Nat)
  | [], k => [(k, 1)]
  | (k', c) :: rest, k =>
      if k' = k then (k', c + 1) :: rest else (k', c) :: bumpKey rest k

/-- The full `reduce`: occurrence counts keyed in first-encountered order. -/
def countReduce (keys : List String) : List (String × Nat) :=
  keys.foldl bumpKey []

/-- Numeric value of a decimal-digit string (total function; only used on
digit-only keys). -/
def keyToNat (s : String) : Nat :=
  s.data.foldl (fun n c => n * 10 + (c.toNat - 48)) 0

/-- Is `s` an array-index key in JavaScript's sense: a canonical numeric
string — non-empty, all decimal digits, no leading zero unless it is exactly
`"0"` — whose value is at most `2^32 - 2`?  `Object.entries` on a plain object
lists such keys first, in ascending numeric order, before the remaining string
keys in insertion order. -/
def isArrayIndexKey (s : String) : Bool :=
  !s.data.isEmpty &&
  s.data.all (fun c => c.isDigit) &&
  (s.data.head? != some '0' || s == "0") &&
  keyToNat s < 4294967295

/-- The `Object.entries` enumeration order on the modelled object: the
array-index keys first, sorted ascending by numeric value, then all other keys
in insertion (first-encountered) order. -/
def jsObjectEntries (l : List (String × Nat)) : List (String × Nat) :=
  (l.filter fun e => isArrayIndexKey e.1).mergeSort
      (fun a b => keyToNat a.1 ≤ keyToNat b.1) ++
    l.filter fun e => !isArrayIndexKey e.1

/-- `categoryStats`: occurrence count per category label. -/
def categoryStats (incidents : List Incident) : List (String × Nat) :=
  countReduce (incidents.map fun i => i.category)

/-- `locationStats`: occurrence count per location label. -/
def locationStats (incidents : List Incident) : List (String × Nat) :=
  countReduce (incidents.map fun i => i.location)

/-- The comparator `([, a], [, b]) => b - a` of `Dashboard.tsx` lines 142–148:
descending by count; `Array.prototype.sort` is stable, so entries with equal
counts keep their first-encountered order. -/
def entriesLE (a b : String × Nat) : Bool :=
  b.2 ≤ a.2

/-- `Object.entries(stats).sort(([, a], [, b]) => b - a)` as a stable sort. -/
def sortEntries (l : List (String × Nat)) : List (String × Nat) :=
  l.mergeSort entriesLE

/-- The sorted count entries truncated to the requested length — the
`.slice(0, n)` step, with the count parameterised (the component instantiates
it at 5). -/
def topEntriesN (l : List (String × Nat)) (n : Nat) : List (String × Nat) :=
  (sortEntries l).take n

/-- `topCategories` generalised over the truncation count:
`Object.entries(categoryStats).sort(...)` truncated to `n` entries. -/
def topCategoriesN (incidents : List Incident) (n : Nat) : List (String × Nat) :=
  topEntriesN (jsObjectEntries (categoryStats incidents)) n

/-- `topLocations` generalised over the truncation count:
`Object.entries(locationStats).sort(...)` truncated to `n` entries. -/
def topLocationsN (incidents : List Incident) (n : Nat) : List (String × Nat) :=
  topEntriesN (jsObjectEntries (locationStats incidents)) n

/-- `topCategories` exactly as in the component: `.slice(0, 5)`. -/
def topCategories (incidents : List Incident) : List (String × Nat) :=
  topCategoriesN incidents 5

/-- `topLocations` exactly as in the component: `.slice(0, 5)`. -/
def topLocations (incidents : List Incident) : List (String × Nat) :=
  topLocationsN incidents 5

/-- The slice of JavaScript number semantics the priority-breakdown width
computation can reach: finite values (exact rationals here), the two
infinities, and NaN. -/
inductive JSNum
  | nan
  | inf
  | negInf
  | num (q : ℚ)
deriving DecidableEq, Repr

/-- JavaScript division on that domain: `0 / 0` is NaN and `x / 0` for
nonzero `x` is a signed infinity; otherwise exact division. -/
def jsDiv (a b : ℚ) : JSNum :=
  if b = 0 then
    if a = 0 then .nan
    else if 0 < a then .inf
    else .negInf
  else .num (a / b)

/-- Multiplication by the positive literal `100`, as applied to the ratio:
NaN and the infinities are fixed, finite values scale. -/
def jsMul100 : JSNum → JSNum
  | .nan => .nan
  | .inf => .inf
  | .negInf => .negInf
  | .num q => .num (q * 100)

/-- The width ratio `(stats.critical / stats.total) * 100` of the Critical bar
(`Dashboard.tsx` line 213). -/
def criticalWidth (s : Stats) : JSNum :=
  jsMul100 (jsDiv (s.critical : ℚ) (s.total : ℚ))

/-- The width ratio `(stats.high / stats.total) * 100` of the High bar
(`Dashboard.tsx` line 225). -/
def highWidth (s : Stats) : JSNum :=
  jsMul100 (jsDiv (s.high : ℚ) (s.total : ℚ))

/-- A concrete stored incident used by concrete witnesses and
counterexamples. -/
def sampleIncident : Incident :=
  { id := 42
  , title := "Broken door"
  , description := "Side entrance does not lock"
  , status := .«open»
  , priority := .critical
  , category := "fire"
  , location := "Building 1"
  , reporter_id := 1
  , assigned_to := none
  , evidence_urls := []
  , created_at := 10
  , updated_at := 10
  , resolved_at := none }

/-- A concrete store state holding the single `sampleIncident`. -/
def sampleState : StoreState :=
  { incidents := [sampleIncident], updates := [], now := 20, nextId := 100 }

/-- A raw form input whose four required text fields are all empty. -/
def emptyInput : IncidentInput :=
  { title := ""
  , description := ""
  , priority := .medium
  , category := ""
  , location := ""
  , rawStatus := some .closed
  , evidence_urls := [] }

/-- Incident A of the spec scenario: priority critical, category "fire",
location "Building 1". -/
def incidentA : Incident :=
  { sampleIncident with
    id := 50, category := "fire", location := "Building 1",
    priority := .critical, created_at := 11, updated_at := 11 }

/-- Incident B of the spec scenario: priority low, category "theft",
location "Building 2". -/
def incidentB : Incident :=
  { sampleIncident with
    id := 51, category := "theft", location := "Building 2",
    priority := .low, created_at := 12, updated_at := 12 }

/-- An incident whose location is the canonical numeric string "205" (a room
number), reported first. -/
def incidentC : Incident :=
  { sampleIncident with
    id := 60, location := "205", created_at := 13, updated_at := 13 }

/-- An incident whose location is the canonical numeric string "101",
reported second. -/
def incidentD : Incident :=
  { sampleIncident with
    id := 61, location := "101", created_at := 14, updated_at := 14 }

end IncidentSystem

namespace IncidentSystem

/-! ### Helper lemmas -/

theorem occursIn_nil_left (l : List Char) : occursIn [] l = true := by
  cases l <;> simp [occursIn, leadMatch, List.isEmpty]

theorem jsIncludes_empty (hay : String) : jsIncludes hay "" = true := by
  simp [jsIncludes]
  exact occursIn_nil_left _

theorem statusToString_ne_all (s : IncidentStatus) :
    (statusToString s == "all") = false := by
  cases s <;> decide

theorem statusToString_beq (a b : IncidentStatus) :
    (statusToString a == statusToString b) = (a == b) := by
  cases a <;> cases b <;> decide

theorem createdDescLE_trans (a b c : Incident) :
    createdDescLE a b → createdDescLE b c → createdDescLE a c := by
  simp only [createdDescLE, decide_eq_true_eq]
  exact fun h1 h2 => le_trans h2 h1

theorem createdDescLE_total (a b : Incident) :
    createdDescLE a b || createdDescLE b a := by
  simp only [createdDescLE, Bool.or_eq_true, decide_eq_true_eq]
  exact le_total b.created_at a.created_at

theorem entriesLE_trans (a b c : String × Nat) :
    entriesLE a b → entriesLE b c → entriesLE a c := by
  simp only [entriesLE, decide_eq_true_eq]
  exact fun h1 h2 => le_trans h2 h1

theorem entriesLE_total (a b : String × Nat) :
    entriesLE a b || entriesLE b a := by
  simp only [entriesLE, Bool.or_eq_true, decide_eq_true_eq]
  exact le_total b.2 a.2

theorem strToLower_empty : strToLower "" = "" := rfl

theorem matchesFilters_noFilter (i : Incident) :
    matchesFilters ⟨"", "all", "all"⟩ i = true := by
  simp only [matchesFilters, strToLower_empty, jsIncludes_empty]
  simp

end IncidentSystem

namespace IncidentSystem

/-! ### The claims -/

/-- Claim C2: for every valid input, `createIncident` returns a persisted
record whose status is `open` and whose `resolved_at` is null, regardless of
any status value present in the raw caller-supplied input (the input record,
including its `rawStatus` field, is universally quantified and the insert
payload never reads that field). -/
theorem createIncident_forces_open (st : StoreState) (input : IncidentInput)
    (uid : Nat) :
    ∃ row st',
      createIncident st input (some uid) = (.ok row, st') ∧
      row.status = .«open» ∧
      row.resolved_at = none ∧
      st'.incidents = st.incidents ++ [row] := by
  exact ⟨freshIncident st input uid, _, rfl, rfl, rfl, rfl⟩

/-- Claim C9: `summarize xs` has `total` equal to the length of `xs` for every
sequence; over the empty sequence every status and priority count is zero, the
category and location mappings are empty, and `topCategories 3` on such input
is empty. -/
theorem summarize_total_and_empty (xs : List Incident) :
    (summarize xs).total = xs.length ∧
    summarize [] = ⟨0, 0, 0, 0, 0, 0, 0⟩ ∧
    categoryStats [] = [] ∧
    locationStats [] = [] ∧
    topCategoriesN [] 3 = [] := by
  refine ⟨rfl, rfl, rfl, rfl, ?_⟩
  simp [topCategoriesN, topEntriesN, sortEntries, categoryStats, countReduce,
    jsObjectEntries]

/-- Claim C10: for every incident sequence the four per-status counts sum
exactly to the total count — the status breakdown partitions the incident
set. -/
theorem status_counts_partition (xs : List Incident) :
    (summarize xs).«open» + (summarize xs).inProgress +
      (summarize xs).resolved + (summarize xs).closed = (summarize xs).total := by
  induction xs with
  | nil => rfl
  | cons a t ih =>
      simp only [summarize, List.filter_cons, List.length_cons] at ih ⊢
      cases h : a.status <;> simp [h] <;> omega

/-- Claim C8: for every incident and comment submission, `addComment` appends
one Incident Update of kind `comment` and leaves the stored incidents — hence
every field of the parent incident, in particular status, priority and
`updated_at` — unchanged, for any content. -/
theorem addComment_frame (st : StoreState) (iid : Nat) (content : String)
    (uid : Nat) (h : ∃ i ∈ st.incidents, i.id = iid) :
    ∃ st',
      addUpdate st iid content (some uid) = (.ok (), st') ∧
      st'.incidents = st.incidents ∧
      st'.updates = st.updates ++
        [{ id := st.nextId
         , incident_id := iid
         , user_id := uid
         , update_type := "comment"
         , content := content
         , created_at := st.now }] := by
  obtain ⟨i, hi, hid⟩ := h
  have hany : (st.incidents.any fun j => j.id == iid) = true := by
    rw [List.any_eq_true]
    exact ⟨i, hi, by simp [hid]⟩
  refine ⟨{ st with
            updates := st.updates ++
              [{ id := st.nextId
               , incident_id := iid
               , user_id := uid
               , update_type := "comment"
               , content := content
               , created_at := st.now }]
            nextId := st.nextId + 1 }, ?_, rfl, rfl⟩
  simp only [addUpdate, dbInsertUpdate, hany, if_true]

/-- Witness for claim C8 at a concrete store, incident and comment. -/
theorem addComment_frame_witness :
    ∃ st',
      addUpdate sampleState 42 "please check the camera" (some 7) = (.ok (), st') ∧
      st'.incidents = sampleState.incidents ∧
      st'.updates = sampleState.updates ++
        [{ id := 100
         , incident_id := 42
         , user_id := 7
         , update_type := "comment"
         , content := "please check the camera"
         , created_at := 20 }] :=
  addComment_frame sampleState 42 "please check the camera" 7
    ⟨sampleIncident, by simp [sampleState], rfl⟩

/-- Counterexample for claim C7 as stated: with no valid acting account,
`transitionStatus` does not surface `Unauthenticated` (its result is success)
and part of the operation does proceed — the incident row's status is changed
to `resolved` — while no timeline entry is recorded. -/
theorem unauthenticated_cex :
    (updateStatus sampleState 42 .resolved none).1 = .ok () ∧
    ((updateStatus sampleState 42 .resolved none).2.incidents.map
        fun i => i.status) = [.resolved] ∧
    (updateStatus sampleState 42 .resolved none).2.updates = [] :=
  ⟨rfl, rfl, rfl⟩

/-- Claim C7 (amended): only `createIncident` consults authentication and
stops immediately with nothing persisted when there is no account.
`transitionStatus` performs the status write before reading the account and
ignores the failure of the timeline insert, so with no account the incident row
is still mutated, no update is recorded, and the operation reports success.
`addComment`'s insert fails at the store (author NOT NULL), surfaced as a
storage error — not as `Unauthenticated` — with no update inserted and the
state unchanged. -/
theorem unauthenticated_behaviour (st : StoreState) (input : IncidentInput)
    (iid : Nat) (s : IncidentStatus) (content : String) :
    createIncident st input none = (.error .notAuthenticated, st) ∧
    (updateStatus st iid s none).1 = .ok () ∧
    (updateStatus st iid s none).2 = dbUpdateIncident st iid (statusPatch s st.now) ∧
    addUpdate st iid content none = (.error .storageError, st) :=
  ⟨rfl, rfl, rfl, rfl⟩

/-- Counterexample for claim C3 as stated: an input whose four required text
fields are all empty does not make `createIncident` fail with a validation
error — the call succeeds and the record is persisted with the empty fields. -/
theorem createIncident_noValidation_cex :
    emptyInput.title = "" ∧ emptyInput.description = "" ∧
    emptyInput.category = "" ∧ emptyInput.location = "" ∧
    (createIncident sampleState emptyInput (some 3)).1 =
      .ok (freshIncident sampleState emptyInput 3) ∧
    (createIncident sampleState emptyInput (some 3)).2.incidents =
      sampleState.incidents ++ [freshIncident sampleState emptyInput 3] :=
  ⟨rfl, rfl, rfl, rfl, rfl, rfl⟩

/-- Claim C3 (amended): `createIncident` performs no emptiness validation —
for every input, including those whose required text fields are empty strings,
an authenticated call succeeds and persists exactly one full record carrying
the supplied fields verbatim; an unauthenticated call fails and persists
nothing.  Either the full record is written or none of it is. -/
theorem createIncident_noValidation (st : StoreState) (input : IncidentInput)
    (uid : Nat) :
    (∃ row st',
      createIncident st input (some uid) = (.ok row, st') ∧
      row.title = input.title ∧
      row.description = input.description ∧
      row.category = input.category ∧
      row.location = input.location ∧
      row.status = .«open» ∧
      st'.incidents = st.incidents ++ [row] ∧
      st'.updates = st.updates) ∧
    createIncident st input none = (.error .notAuthenticated, st) :=
  ⟨⟨freshIncident st input uid, _, rfl, rfl, rfl, rfl, rfl, rfl, rfl, rfl⟩, rfl⟩

/-- Counterexample for claim C6 as stated: when the total is zero the Critical
bar's width ratio evaluates to NaN, which is not the special-cased value 0 that
a "0%" display would require. -/
theorem width_zero_total_cex :
    criticalWidth (summarize []) = JSNum.nan ∧ JSNum.nan ≠ JSNum.num 0 := by
  refine ⟨?_, by simp⟩
  norm_num [criticalWidth, summarize, jsDiv, jsMul100]

/-- Claim C6 (amended): the percentage-of-total computation has no special
case at total = 0 — there, both priority-bar width ratios evaluate to NaN
(rendered as the invalid width string `"NaN%"`), not to a special-cased 0;
the computation is a total function, so no numeric error propagates. -/
theorem width_zero_total_amended (xs : List Incident)
    (h : (summarize xs).total = 0) :
    criticalWidth (summarize xs) = JSNum.nan ∧
    highWidth (summarize xs) = JSNum.nan := by
  have hx : xs = [] := List.length_eq_zero.mp h
  subst hx
  constructor <;> norm_num [criticalWidth, highWidth, summarize, jsDiv, jsMul100]

/-- Witness for the amended claim C6 at the empty snapshot. -/
theorem width_zero_total_amended_witness :
    (summarize ([] : List Incident)).total = 0 ∧
    criticalWidth (summarize []) = JSNum.nan ∧
    highWidth (summarize []) = JSNum.nan :=
  ⟨rfl, (width_zero_total_amended [] rfl).1, (width_zero_total_amended [] rfl).2⟩

/-- Claim C1: for every stored incident and every target status `s`, a
successful `transitionStatus` sets the incident's status to `s`, sets
`resolved_at` to the current time exactly when `s = resolved` and to null
otherwise, and appends exactly one Incident Update of kind `status_change`
with content `"Status changed to: " ++ s` authored by the acting account —
including the no-op transition to the current status. -/
theorem transitionStatus_spec (st : StoreState) (iid : Nat) (s : IncidentStatus)
    (actor : Nat) (i : Incident) (hi : i ∈ st.incidents) (hid : i.id = iid) :
    (updateStatus st iid s (some actor)).1 = .ok () ∧
    (updateStatus st iid s (some actor)).2.updates = st.updates ++
      [{ id := st.nextId
       , incident_id := iid
       , user_id := actor
       , update_type := "status_change"
       , content := "Status changed to: " ++ statusToString s
       , created_at := st.now }] ∧
    (∀ j ∈ (updateStatus st iid s (some actor)).2.incidents, j.id = iid →
      j.status = s ∧
      j.resolved_at = (if s = .resolved then some st.now else none)) ∧
    (∃ j ∈ (updateStatus st iid s (some actor)).2.incidents, j.id = iid) := by
  have hany : ((dbUpdateIncident st iid (statusPatch s st.now)).incidents.any
      fun j => j.id == iid) = true := by
    rw [List.any_eq_true]
    refine ⟨_, List.mem_map_of_mem _ hi, ?_⟩
    simp [hid, statusPatch]
  have hstep : updateStatus st iid s (some actor) =
      (.ok (), { dbUpdateIncident st iid (statusPatch s st.now) with
                 updates := st.updates ++
                   [{ id := st.nextId
                    , incident_id := iid
                    , user_id := actor
                    , update_type := "status_change"
                    , content := "Status changed to: " ++ statusToString s
                    , created_at := st.now }]
                 nextId := st.nextId + 1 }) := by
    simp only [updateStatus, dbInsertUpdate, hany, if_true]
    rfl
  rw [hstep]
  refine ⟨rfl, rfl, ?_, ?_⟩
  · intro j hj hjid
    simp only [dbUpdateIncident, List.mem_map] at hj
    obtain ⟨k, hk, rfl⟩ := hj
    by_cases hkid : k.id = iid
    · simp [hkid, statusPatch]
    · simp [hkid] at hjid
  · refine ⟨_, List.mem_map_of_mem _ hi, ?_⟩
    simp [hid, statusPatch]

/-- Witness for claim C1 at a concrete store, incident, status and actor. -/
theorem transitionStatus_spec_witness :
    sampleIncident ∈ sampleState.incidents ∧ sampleIncident.id = 42 ∧
    (updateStatus sampleState 42 .resolved (some 7)).1 = .ok () := by
  refine ⟨by simp [sampleState], rfl, ?_⟩
  exact (transitionStatus_spec sampleState 42 .resolved 7 sampleIncident
    (by simp [sampleState]) rfl).1

end IncidentSystem

namespace IncidentSystem

/-! ### Further helper lemmas for the list and aggregation claims -/

theorem sortEntries_sorted (l : List (String × Nat)) :
    (sortEntries l).Pairwise fun a b => b.2 ≤ a.2 :=
  (List.sorted_mergeSort entriesLE_trans entriesLE_total l).imp
    fun h => by simpa [entriesLE] using h

theorem topEntriesN_length (l : List (String × Nat)) (n : Nat) :
    (topEntriesN l n).length = min n l.length := by
  simp [topEntriesN, sortEntries]

theorem topEntriesN_subset (l : List (String × Nat)) (n : Nat) :
    ∀ e ∈ topEntriesN l n, e ∈ l := by
  intro e he
  have h1 : e ∈ sortEntries l := List.take_subset n _ he
  simpa [sortEntries] using h1

theorem topEntriesN_sorted (l : List (String × Nat)) (n : Nat) :
    (topEntriesN l n).Pairwise fun a b => b.2 ≤ a.2 :=
  (sortEntries_sorted l).sublist (List.take_sublist _ _)

theorem topEntriesN_dominates (l : List (String × Nat)) (n : Nat) :
    ∀ e ∈ topEntriesN l n, ∀ e' ∈ l, e' ∉ topEntriesN l n → e'.2 ≤ e.2 := by
  intro e he e' he' hne
  have hsorted : (sortEntries l).Pairwise fun a b => entriesLE a b :=
    List.sorted_mergeSort entriesLE_trans entriesLE_total l
  have hsplit : (sortEntries l).take n ++ (sortEntries l).drop n = sortEntries l :=
    List.take_append_drop n _
  rw [← hsplit] at hsorted
  obtain ⟨-, -, hcross⟩ := List.pairwise_append.mp hsorted
  have he'mem : e' ∈ sortEntries l := by simpa [sortEntries] using he'
  rw [← hsplit] at he'mem
  rcases List.mem_append.mp he'mem with h | h
  · exact absurd h hne
  · have := hcross e he e' h
    simpa [entriesLE] using this

theorem sortEntries_stable (l : List (String × Nat)) (a b : String × Nat)
    (hab : a.2 = b.2) (h : [a, b].Sublist l) : [a, b].Sublist (sortEntries l) := by
  apply List.pair_sublist_mergeSort entriesLE_trans entriesLE_total
  · simp [entriesLE, hab]
  · exact h

theorem jsObjectEntries_perm (l : List (String × Nat)) :
    (jsObjectEntries l).Perm l := by
  unfold jsObjectEntries
  exact ((List.mergeSort_perm _ _).append (List.Perm.refl _)).trans
    (List.filter_append_perm _ l)

theorem jsObjectEntries_length (l : List (String × Nat)) :
    (jsObjectEntries l).length = l.length :=
  (jsObjectEntries_perm l).length_eq

theorem jsObjectEntries_mem (l : List (String × Nat)) (e : String × Nat) :
    e ∈ jsObjectEntries l ↔ e ∈ l :=
  (jsObjectEntries_perm l).mem_iff

/-- Claim C4: `listIncidents` returns exactly the incidents satisfying the
intersection of the supplied predicates (case-insensitive substring search
against title OR description, status equality, priority equality), in
descending creation-time order; with no filters it returns all incidents in
that order, and a status filter yields exactly the incidents with that status,
preserving relative order (it is a filter of the unfiltered result). -/
theorem listIncidents_spec (st : StoreState) :
    (∀ f : Filters, ∀ i : Incident,
      i ∈ listIncidents st f ↔ i ∈ st.incidents ∧ matchesFilters f i = true) ∧
    (∀ f : Filters,
      (listIncidents st f).Pairwise fun a b => b.created_at ≤ a.created_at) ∧
    (listIncidents st ⟨"", "all", "all"⟩).Perm st.incidents ∧
    (∀ s : IncidentStatus,
      listIncidents st ⟨"", statusToString s, "all"⟩ =
        (listIncidents st ⟨"", "all", "all"⟩).filter fun i => i.status == s) := by
  have hall : listIncidents st ⟨"", "all", "all"⟩ = fetchIncidentsDesc st := by
    unfold listIncidents
    exact List.filter_eq_self.mpr fun a _ => matchesFilters_noFilter a
  refine ⟨?_, ?_, ?_, ?_⟩
  · intro f i
    unfold listIncidents fetchIncidentsDesc
    rw [List.mem_filter, List.mem_mergeSort]
  · intro f
    have h1 : (fetchIncidentsDesc st).Pairwise fun a b => createdDescLE a b :=
      List.sorted_mergeSort createdDescLE_trans createdDescLE_total st.incidents
    have h2 : (fetchIncidentsDesc st).Pairwise fun a b => b.created_at ≤ a.created_at :=
      h1.imp fun h => by simpa [createdDescLE] using h
    exact h2.sublist (List.filter_sublist _)
  · rw [hall]
    exact List.mergeSort_perm st.incidents createdDescLE
  · intro s
    rw [hall]
    unfold listIncidents
    apply List.filter_congr
    intro i _
    simp [matchesFilters, strToLower_empty, jsIncludes_empty, statusToString_ne_all,
      statusToString_beq]

/-- Counterexample for claim C5 as stated: with locations `"205"` then
`"101"`, each appearing once, the first-encountered key of the tie is `"205"`
(the count mapping lists it first), yet the program's top-1 list is
`[("101", 1)]` — `Object.entries` enumerates array-index-like keys in
ascending numeric order before the stable sort sees them, so the tie is not
broken by first-encountered input order. -/
theorem topEntries_tiebreak_cex :
    locationStats [incidentC, incidentD] = [("205", 1), ("101", 1)] ∧
    topLocationsN [incidentC, incidentD] 1 = [("101", 1)] ∧
    (("101", 1) : String × Nat) ≠ ("205", 1) := by
  refine ⟨by decide, ?_, by decide⟩
  have h205 : keyToNat "205" = 205 := by decide
  have h101 : keyToNat "101" = 101 := by decide
  have hidx : ((locationStats [incidentC, incidentD]).filter
      fun e => isArrayIndexKey e.1) = [("205", 1), ("101", 1)] := by decide
  have hrest : ((locationStats [incidentC, incidentD]).filter
      fun e => !isArrayIndexKey e.1) = [] := by decide
  have henum : jsObjectEntries (locationStats [incidentC, incidentD]) =
      [("101", 1), ("205", 1)] := by
    unfold jsObjectEntries
    rw [hidx, hrest]
    simp [List.mergeSort, List.merge, h205, h101]
  show topEntriesN (jsObjectEntries (locationStats [incidentC, incidentD])) 1 = _
  rw [henum]
  simp [topEntriesN, sortEntries, List.mergeSort, List.merge, entriesLE]

/-- Claim C5 (amended): for every incident sequence and every `n`, the
top-categories and top-locations computations return the `n` entries with the
highest counts from the respective count mapping as enumerated by
`Object.entries` — array-index-like keys first, in ascending numeric order,
then the remaining keys in first-encountered order — with ties broken by that
enumeration order (the sort is stable) and the result truncated to `n` (fewer
if there are fewer distinct keys); in particular on categories
`["fire", "theft"]` (non-numeric keys) each appearing once, the top-1 list is
`[("fire", 1)]`. -/
theorem topEntries_enumOrder_spec (xs : List Incident) (n : Nat) :
    ((topCategoriesN xs n).length = min n (categoryStats xs).length ∧
     (∀ e ∈ topCategoriesN xs n, e ∈ categoryStats xs) ∧
     (topCategoriesN xs n).Pairwise (fun a b => b.2 ≤ a.2) ∧
     (∀ e ∈ topCategoriesN xs n, ∀ e' ∈ categoryStats xs,
        e' ∉ topCategoriesN xs n → e'.2 ≤ e.2) ∧
     (∀ a b : String × Nat, a.2 = b.2 →
        [a, b].Sublist (jsObjectEntries (categoryStats xs)) →
        [a, b].Sublist (sortEntries (jsObjectEntries (categoryStats xs))))) ∧
    ((topLocationsN xs n).length = min n (locationStats xs).length ∧
     (∀ e ∈ topLocationsN xs n, e ∈ locationStats xs) ∧
     (topLocationsN xs n).Pairwise (fun a b => b.2 ≤ a.2) ∧
     (∀ e ∈ topLocationsN xs n, ∀ e' ∈ locationStats xs,
        e' ∉ topLocationsN xs n → e'.2 ≤ e.2) ∧
     (∀ a b : String × Nat, a.2 = b.2 →
        [a, b].Sublist (jsObjectEntries (locationStats xs)) →
        [a, b].Sublist (sortEntries (jsObjectEntries (locationStats xs))))) ∧
    topCategoriesN [incidentA, incidentB] 1 = [("fire", 1)] := by
  refine ⟨⟨(topEntriesN_length _ n).trans (by rw [jsObjectEntries_length]),
      fun e he => (jsObjectEntries_mem _ e).mp (topEntriesN_subset _ n e he),
      topEntriesN_sorted _ n,
      fun e he e' he' hne => topEntriesN_dominates _ n e he e'
        ((jsObjectEntries_mem _ e').mpr he') hne,
      fun a b hab h => sortEntries_stable _ a b hab h⟩,
    ⟨(topEntriesN_length _ n).trans (by rw [jsObjectEntries_length]),
      fun e he => (jsObjectEntries_mem _ e).mp (topEntriesN_subset _ n e he),
      topEntriesN_sorted _ n,
      fun e he e' he' hne => topEntriesN_dominates _ n e he e'
        ((jsObjectEntries_mem _ e').mpr he') hne,
      fun a b hab h => sortEntries_stable _ a b hab h⟩, ?_⟩
  have hidx : ((categoryStats [incidentA, incidentB]).filter
      fun e => isArrayIndexKey e.1) = [] := by decide
  have hrest : ((categoryStats [incidentA, incidentB]).filter
      fun e => !isArrayIndexKey e.1) = [("fire", 1), ("theft", 1)] := by decide
  have henum : jsObjectEntries (categoryStats [incidentA, incidentB]) =
      [("fire", 1), ("theft", 1)] := by
    unfold jsObjectEntries
    rw [hidx, hrest]
    simp [List.mergeSort]
  show topEntriesN (jsObjectEntries (categoryStats [incidentA, incidentB])) 1 = _
  rw [henum]
  simp [topEntriesN, sortEntries, List.mergeSort, List.merge, entriesLE]

end IncidentSystem
